import Mathlib

/-!
Verification of greenwave's retrieval layer, HTTP request session, waiver
application, answer summarisation and decision-change detection against the
natural-language specification.  Each Python function referenced by a claim
is embedded as an executable Lean definition; network and subprocess
interaction is made explicit by passing the upstream behaviour (statuses,
contents, exit codes) as arguments and returning the issued requests
alongside the computed value.
-/

namespace Greenwave

/-! ## HTTP responses and the request session (greenwave/request_session.py) -/

/-- Model of a `requests.Response` object: status code, body, URL and reason. -/
structure Response where
  statusCode : Nat
  content : String
  url : String
  reason : String
deriving DecidableEq, Repr

/-- JSON string escaping for one character, as performed by `json.dumps`
(backslash and double quote are the escapes relevant to plain text). -/
def jsonEscapeChar (c : Char) : String :=
  if c = '\\' then "\\\\"
  else if c = '\"' then "\\\""
  else String.singleton c

/-- JSON string escaping, as performed by `json.dumps` on a string value. -/
def jsonEscape (s : String) : String :=
  String.join (s.data.map jsonEscapeChar)

/-- Body produced by `dumps({'message': error_message})` in
`ErrorResponse.content`: a one-key JSON object carrying the error message. -/
def jsonDumpsMessage (msg : String) : String :=
  "\x7b\"message\": \"" ++ jsonEscape msg ++ "\"\x7d"

/-- Embedding of `greenwave.request_session.ErrorResponse`: a synthetic
response with the given status code whose body carries the error message and
whose `reason` is the error message. -/
def ErrorResponse (statusCode : Nat) (errorMessage : String) (url : String) : Response :=
  { statusCode := statusCode
    content := jsonDumpsMessage errorMessage
    url := url
    reason := errorMessage }

/-- The exception classes handled by `RequestsSession.response`, each carrying
its message (`str(e)`).  These are exactly the classes named in the two
`except` clauses of the source. -/
inductive RequestError where
  | connectTimeout (msg : String)
  | retryError (msg : String)
  | connectionError (msg : String)
  | proxyError (msg : String)
  | sslError (msg : String)
deriving DecidableEq, Repr

/-- The message carried by a request error. -/
def RequestError.message : RequestError → String
  | .connectTimeout msg => msg
  | .retryError msg => msg
  | .connectionError msg => msg
  | .proxyError msg => msg
  | .sslError msg => msg

/-- Outcome of awaiting the future of an upstream request issued through the
session: either a response, or one of the handled exception classes together
with the request URL (`future.request.url`). -/
inductive FutureResult where
  | success (resp : Response)
  | failure (url : String) (e : RequestError)
deriving DecidableEq, Repr

/-- Embedding of `RequestsSession.response`: `future.result()` either returns
the response or raises; `ConnectTimeout` and `RetryError` become a synthetic
504 response, `ConnectionError`, `ProxyError` and `SSLError` become a
synthetic 502 response.  No handled failure is re-raised (the function is
total on the handled classes). -/
def RequestsSession.response : FutureResult → Response
  | .success r => r
  | .failure url (.connectTimeout msg) => ErrorResponse 504 msg url
  | .failure url (.retryError msg) => ErrorResponse 504 msg url
  | .failure url (.connectionError msg) => ErrorResponse 502 msg url
  | .failure url (.proxyError msg) => ErrorResponse 502 msg url
  | .failure url (.sslError msg) => ErrorResponse 502 msg url

/-! ## Remote rule fragment fetch (greenwave/resources.py) -/

/-- The module-level error message `_retrieve_gating_yaml_error`. -/
def retrieve_gating_yaml_error : String :=
  "Error occurred looking for gating.yaml file in the dist-git repo."

/-- Errors raised by the fragment fetch: `BadGateway` from werkzeug, or the
`HTTPError` raised by `response.raise_for_status()` on a failed GET. -/
inductive FetchErr where
  | badGateway (msg : String)
  | httpError (status : Nat)
deriving DecidableEq, Repr

/-- HTTP request methods issued by the web fetch path. -/
inductive HttpMethod where
  | head
  | get
deriving DecidableEq, Repr

/-- Behaviour of the dist-git web front-end for the fragment URL: the status
the server answers to HEAD and to GET, and the content a successful GET
returns. -/
structure WebEndpoint where
  headStatus : Nat
  getStatus : Nat
  getContent : String
deriving DecidableEq, Repr

/-- Embedding of `_retrieve_yaml_remote_rule_web`.  Returns the list of
requests issued in order, paired with the outcome: a HEAD is sent first; 404
yields `none` (no fragment), any other non-200 raises `BadGateway`, and only
after a 200 HEAD is the GET issued, whose non-success statuses (>= 400) raise
via `raise_for_status`. -/
def retrieve_yaml_remote_rule_web (w : WebEndpoint) :
    List HttpMethod × Except FetchErr (Option String) :=
  if w.headStatus = 404 then ([.head], .ok none)
  else if w.headStatus ≠ 200 then ([.head], .error (.badGateway retrieve_gating_yaml_error))
  else if 400 ≤ w.getStatus then ([.head, .get], .error (.httpError w.getStatus))
  else ([.head, .get], .ok (some w.getContent))

/-- Python's substring containment test `needle in haystack` for the nonempty
needles used by the source. -/
def strContainsSubstr (haystack needle : String) : Bool :=
  (haystack.splitOn needle).length > 1

/-- Observed behaviour of the `git archive` subprocess: exit code, decoded
standard error, and (when it succeeds) the `gating.yaml` member extracted
from the produced tar archive (the in-memory tar extraction of the source is
abstracted into this field). -/
structure GitArchive where
  returncode : Int
  errorOutput : String
  gatingYaml : String
deriving DecidableEq, Repr

/-- Embedding of `_retrieve_yaml_remote_rule_git_archive`: non-zero exit with
"path not found" in the error output yields `none` (no fragment), any other
non-zero exit raises `BadGateway`, and a zero exit returns the extracted
`gating.yaml` content. -/
def retrieve_yaml_remote_rule_git_archive (g : GitArchive) :
    Except FetchErr (Option String) :=
  if g.returncode ≠ 0 then
    if strContainsSubstr g.errorOutput "path not found" then .ok none
    else .error (.badGateway retrieve_gating_yaml_error)
  else .ok (some g.gatingYaml)

/-- Embedding of `retrieve_yaml_remote_rule`'s dispatch: a `git://` base URL
selects the git-archive path, anything else the web path. -/
def retrieve_yaml_remote_rule (distGitBaseUrl : String)
    (w : WebEndpoint) (g : GitArchive) : Except FetchErr (Option String) :=
  if distGitBaseUrl.startsWith "git://" then retrieve_yaml_remote_rule_git_archive g
  else (retrieve_yaml_remote_rule_web w).2

/-! ## Waiver retrieval (greenwave/resources.py, retrieve_waivers) -/

/-- One entry of the `filters` list posted to the waivers service. -/
structure WaiverFilter where
  product_version : String
  subject_type : String
  subject_identifier : String
  since : Option String
deriving DecidableEq, Repr

/-- The `since` parameter format used throughout the source:
`'1900-01-01T00:00:00.000000,{when}'`. -/
def sinceValue (when : String) : String :=
  "1900-01-01T00:00:00.000000," ++ when

/-- Embedding of `retrieve_waivers`.  The upstream waivers service is passed
in as a function from the posted filters to the returned data; the result
pairs the list of POST requests issued (each identified by its filters) with
the returned waivers.  An empty `subject_identifiers` collection returns `[]`
immediately without issuing any request; otherwise exactly one POST is sent
whose filters list holds one entry per identifier, with `since` present
exactly when `when` is truthy (non-empty). -/
def retrieve_waivers {W : Type} (upstream : List WaiverFilter → List W)
    (product_version subject_type : String)
    (subject_identifiers : List String) (when : String) :
    List (List WaiverFilter) × List W :=
  if subject_identifiers = [] then ([], [])
  else
    let filters := subject_identifiers.map fun subject_identifier =>
      { product_version := product_version
        subject_type := subject_type
        subject_identifier := subject_identifier
        since := if when = "" then none else some (sinceValue when) : WaiverFilter }
    ([filters], upstream filters)

/-! ## Results retrieval (greenwave/resources.py, ResultsRetriever) -/

/-- A result returned by the results service; id, testcase name and outcome
are the fields the source inspects. -/
structure TestResult where
  id : Nat
  testcase : String
  outcome : String
deriving DecidableEq, Repr

/-- Query parameters of a GET against `/results/latest`; absent keys are
`none`.  Field `productmd_compose_id` stands for the key
`productmd.compose.id` and `distinct_on` for `_distinct_on`. -/
structure Params where
  since : Option String := none
  testcases : Option String := none
  scenario : Option String := none
  type : Option String := none
  item : Option String := none
  original_spec_nvr : Option String := none
  productmd_compose_id : Option String := none
  distinct_on : Option String := none
deriving DecidableEq, Repr

/-- Embedding of the `ResultsRetriever` constructor state. -/
structure ResultsRetriever where
  ignore_results : List Nat
  when : String
  timeout : Nat
  verify : Bool
  url : String
deriving DecidableEq, Repr

/-- Embedding of `ResultsRetriever._make_request`: sets the `_distinct_on`
parameter and issues the GET; the upstream service is the function argument.
Returns the issued query alongside the returned data. -/
def ResultsRetriever.make_request (upstream : Params → List TestResult)
    (params : Params) : Params × List TestResult :=
  let p := { params with distinct_on := some "scenario,system_architecture" }
  (p, upstream p)

/-- Embedding of `ResultsRetriever._retrieve_helper`: the koji_build subject
type issues two queries (type `koji_build,brew-build` with `item`, then, with
those keys removed, `original_spec_nvr`) and concatenates their data; compose
and other types issue one query; results whose id is in `ignore_results` are
removed in every case.  Returns the issued queries alongside the results. -/
def ResultsRetriever.retrieve_helper (r : ResultsRetriever)
    (upstream : Params → List TestResult) (params : Params)
    (subject_type subject_identifier : String) :
    List Params × List TestResult :=
  if subject_type = "koji_build" then
    let p1 := { params with type := some "koji_build,brew-build",
                            item := some subject_identifier }
    let step1 := ResultsRetriever.make_request upstream p1
    let p2 := { p1 with type := none, item := none,
                        original_spec_nvr := some subject_identifier }
    let step2 := ResultsRetriever.make_request upstream p2
    ([step1.1, step2.1],
      (step1.2 ++ step2.2).filter fun t => !(r.ignore_results.contains t.id))
  else if subject_type = "compose" then
    let p1 := { params with productmd_compose_id := some subject_identifier }
    let step1 := ResultsRetriever.make_request upstream p1
    ([step1.1], step1.2.filter fun t => !(r.ignore_results.contains t.id))
  else
    let p1 := { params with type := some subject_type,
                            item := some subject_identifier }
    let step1 := ResultsRetriever.make_request upstream p1
    ([step1.1], step1.2.filter fun t => !(r.ignore_results.contains t.id))

/-- Embedding of `ResultsRetriever.retrieve`: builds the base parameters from
`when`, `testcase` and `scenarios` (a falsy value is modelled as
`none`/`[]`) and delegates to the helper. -/
def ResultsRetriever.retrieve (r : ResultsRetriever)
    (upstream : Params → List TestResult)
    (subject_type subject_identifier : String)
    (testcase : Option String) (scenarios : List String) :
    List Params × List TestResult :=
  let params : Params :=
    { since := if r.when = "" then none else some (sinceValue r.when)
      testcases := testcase
      scenario := if scenarios = [] then none
                  else some (String.intercalate "," scenarios) }
  r.retrieve_helper upstream params subject_type subject_identifier

/-! ## Build provenance (greenwave/resources.py, retrieve_scm_from_koji) -/

/-- Fragment component of a URL: the text after the first `#`, as computed by
urllib.parse.urlparse for the URLs the source handles. -/
def urlFragment (url : String) : String :=
  match url.splitOn "#" with
  | [] => ""
  | [_] => ""
  | _ :: rest => String.intercalate "#" rest

/-- Path component of a `scheme://netloc/path` URL with query and fragment
stripped, as computed by urllib.parse.urlparse for the URLs the source
handles; a string without `://` is all path. -/
def urlPath (url : String) : String :=
  let noFrag := (url.splitOn "#").headD ""
  let noQuery := (noFrag.splitOn "?").headD ""
  match noQuery.splitOn "://" with
  | [] => ""
  | [p] => p
  | _ :: rest =>
    let hostPath := String.intercalate "://" rest
    match hostPath.splitOn "/" with
    | [] => ""
    | [_] => ""
    | _ :: pathParts => "/" ++ String.intercalate "/" pathParts

/-- Python `s.rsplit(sep, 2)`: split from the right with at most 2 splits. -/
def rsplit2 (s sep : String) : List String :=
  let parts := s.splitOn sep
  if parts.length ≤ 3 then parts
  else
    let k := parts.length - 2
    [String.intercalate sep (parts.take k)] ++ parts.drop k

/-- Python `re.sub(r'\.git$', '', s)`: drop a trailing `.git`. -/
def stripGitSuffix (s : String) : String :=
  if s.endsWith ".git" then s.dropRight 4 else s

/-- A koji build record; only the `source` attribute is inspected.  `none`
models an absent attribute and the empty string a present-but-falsy one. -/
structure KojiBuild where
  source : Option String
deriving DecidableEq, Repr

/-- Error raised by `retrieve_scm_from_koji_build`: always werkzeug's
`BadGateway`. -/
inductive ScmError where
  | badGateway (msg : String)
deriving DecidableEq, Repr

/-- The message of the `BadGateway` raised when the build lacks a `source`
attribute. -/
def noSourceMessage (nvr koji_url : String) : String :=
  "Failed to retrieve SCM URL from Koji build \"" ++ nvr ++ "\" at \"" ++
    koji_url ++ "\" (expected SCM URL in \"source\" attribute)"

/-- Embedding of `retrieve_scm_from_koji_build`: a falsy build or a missing
or falsy `source` attribute raises `BadGateway`; otherwise the source URL is
parsed into (namespace, package name, revision), raising `BadGateway` when
the revision fragment is empty. -/
def retrieve_scm_from_koji_build (nvr : String) (build : Option KojiBuild)
    (koji_url : String) : Except ScmError (String × String × String) :=
  match build with
  | none =>
    .error (.badGateway ("Failed to find Koji build for \"" ++ nvr ++
      "\" at \"" ++ koji_url ++ "\""))
  | some b =>
    match b.source with
    | none => .error (.badGateway (noSourceMessage nvr koji_url))
    | some source =>
      if source = "" then .error (.badGateway (noSourceMessage nvr koji_url))
      else
        let path := urlPath source
        let path_components := rsplit2 path "/"
        let ns := if path_components.length < 3 then ""
                  else path_components.getD (path_components.length - 2) ""
        let rev := urlFragment source
        if rev = "" then
          .error (.badGateway ("Failed to parse SCM URL \"" ++ source ++
            "\" from Koji build \"" ++ nvr ++ "\" at \"" ++ koji_url ++
            "\" (missing URL fragment with SCM revision information)"))
        else
          let pkg_name := stripGitSuffix ((path.splitOn "/").getLastD "")
          .ok (ns, pkg_name, rev)

/-- The error classes a call into the koji RPC path can fail with: the
transient connection error the retry decorator waits on, or the permanent
`BadGateway` raised by `retrieve_scm_from_koji_build`. -/
inductive KojiCallError where
  | newConnectionError (msg : String)
  | badGateway (msg : String)
deriving DecidableEq, Repr

/-- Whether an error is the `wait_on` class of the decorator on
`retrieve_scm_from_koji` (urllib3 `NewConnectionError`). -/
def KojiCallError.isTransient : KojiCallError → Bool
  | .newConnectionError _ => true
  | .badGateway _ => false

/-- Modelled from the spec: `greenwave.utils.retry` (its module is not among
the provided sources; only its decorator applications are).  "Upstream
transient failures are retried automatically up to the configured bound;
exhaustion surfaces ... to the decision caller" — the wrapped call is
retried while it fails with the `wait_on` class and attempts remain; any
other error propagates immediately. -/
def retryCall {α : Type} (isTransient : KojiCallError → Bool)
    (run : Nat → Except KojiCallError α) :
    Nat → Nat → Except KojiCallError α
  | attempt, 0 => run attempt
  | attempt, fuel + 1 =>
    match run attempt with
    | .ok a => .ok a
    | .error e =>
      if isTransient e then retryCall isTransient run (attempt + 1) fuel
      else .error e

/-- Embedding of `retrieve_scm_from_koji` as decorated by
`retry(wait_on=NewConnectionError)`: the per-attempt koji `getBuild` RPC is
the function argument; its result is handed to
`retrieve_scm_from_koji_build`.  Only `NewConnectionError` is retried. -/
def retrieve_scm_from_koji (fuel : Nat)
    (getBuild : Nat → Except KojiCallError (Option KojiBuild))
    (nvr koji_url : String) : Except KojiCallError (String × String × String) :=
  retryCall KojiCallError.isTransient
    (fun attempt =>
      match getBuild attempt with
      | .error e => .error e
      | .ok build =>
        match retrieve_scm_from_koji_build nvr build koji_url with
        | .ok v => .ok v
        | .error (.badGateway msg) => .error (.badGateway msg))
    0 fuel

/-! ## Retry configuration (greenwave/request_session.py, resources.py) -/

/-- The urllib3 `Retry` configuration constructed by
`get_requests_session`. -/
structure RetryConfig where
  total : Nat
  read : Nat
  connect : Nat
  backoff_factor : Nat
  status_forcelist : List Nat
  method_whitelist : List String
deriving DecidableEq, Repr

/-- urllib3's `Retry.DEFAULT_METHOD_WHITELIST`: the idempotent HTTP
methods. -/
def DEFAULT_METHOD_WHITELIST : List String :=
  ["HEAD", "GET", "PUT", "DELETE", "OPTIONS", "TRACE"]

/-- Embedding of `get_requests_session`: the retry policy mounted on the
shared session for `http://` and `https://` URLs. -/
def get_requests_session : RetryConfig :=
  { total := 3, read := 3, connect := 3, backoff_factor := 1
    status_forcelist := [500, 502, 503, 504]
    method_whitelist := DEFAULT_METHOD_WHITELIST ++ ["POST"] }

/-- urllib3's exponential backoff schedule for a retry configuration:
the delay before the n-th retry is `backoff_factor * 2^(n-1)`. -/
def backoffDelay (cfg : RetryConfig) (n : Nat) : Nat :=
  cfg.backoff_factor * 2 ^ (n - 1)

/-- Parameters of one `greenwave.utils.retry` decorator application. -/
structure RetryParams where
  timeout : Nat
  interval : Nat
  wait_on : String
deriving DecidableEq, Repr

/-- The decorator applied to `retrieve_decision`: retry for up to 300
seconds at 30-second intervals, waiting on connection errors
(`NewConnectionError`) only. -/
def retrieve_decision_retry : RetryParams :=
  { timeout := 300, interval := 30
    wait_on := "urllib3.exceptions.NewConnectionError" }

/-! ## Passing-result external cache (spec section 4.6; ResultsRetriever
caching behaviour, pinned by greenwave/tests/test_policies.py) -/

/-- Key of the process-wide external results cache: subject type, subject
identifier and testcase. -/
abbrev CacheKey := String × String × String

/-- Helper for `retrieve_cached`: query the upstream source once and write a
passing result, if any, into the external cache for the key. -/
def retrieve_cached_query (upstream : Unit → List TestResult)
    (cache : List (CacheKey × TestResult)) (key : CacheKey) :
    List TestResult × List (CacheKey × TestResult) × Nat :=
  let results := upstream ()
  match results.find? (fun t => t.outcome == "PASSED") with
  | some p => (results, (key, p) :: cache.eraseP (fun kv => kv.1 == key), 1)
  | none => (results, cache, 1)

/-- Modelled from the spec: the cache-aware testcase retrieval of
`ResultsRetriever` (the caching base class is not among the provided
sources; only its tests are).  "a passing result for (subject, testcase) is
written into a process-wide external cache keyed by (subject, testcase)
...; a later FAILED outcome for the same key does not evict or overwrite
the cached PASSED entry ...  Uncached (non-passing) lookups always
re-query."  The upstream query for the key is the function argument; the
result is (returned results, updated cache, upstream queries issued). -/
def retrieve_cached (upstream : Unit → List TestResult)
    (cache : List (CacheKey × TestResult)) (key : CacheKey) :
    List TestResult × List (CacheKey × TestResult) × Nat :=
  match cache.lookup key with
  | some r =>
    if r.outcome = "PASSED" then ([r], cache, 0)
    else retrieve_cached_query upstream cache key
  | none => retrieve_cached_query upstream cache key

/-! ## Answers, waiver application and summaries (spec sections 4.3, 4.5;
pinned by greenwave/tests/test_policies.py) -/

/-- The special testcase name under which malformed or missing remote rule
fragments are reported, so that they are waivable like a test failure. -/
def invalidGatingYaml : String := "invalid-gating-yaml"

/-- Modelled from the spec: the Answer variants produced by rule evaluation
(policies.py is not among the provided sources; only its tests are).  Each
answer carries the subject (type, identifier) and a testcase name where the
spec gives it one. -/
inductive Answer where
  | ruleSatisfied
  | testResultPassed (subject_type subject_identifier testcase : String)
  | testResultFailed (subject_type subject_identifier testcase : String) (result_id : Nat)
  | testResultMissing (subject_type subject_identifier testcase : String)
  | invalidRemoteRuleYaml (subject_type subject_identifier : String)
  | missingRemoteRuleYaml (subject_type subject_identifier : String)
deriving DecidableEq, Repr

/-- Whether an answer satisfies its rule. -/
def Answer.is_satisfied : Answer → Bool
  | .ruleSatisfied => true
  | .testResultPassed _ _ _ => true
  | _ => false

/-- The testcase name a waiver must match for the answer; the malformed and
missing remote rule answers report under the special
`invalid-gating-yaml` name. -/
def Answer.testcase : Answer → String
  | .ruleSatisfied => ""
  | .testResultPassed _ _ t => t
  | .testResultFailed _ _ t _ => t
  | .testResultMissing _ _ t => t
  | .invalidRemoteRuleYaml _ _ => invalidGatingYaml
  | .missingRemoteRuleYaml _ _ => invalidGatingYaml

/-- The subject type carried by an answer. -/
def Answer.subjectType : Answer → String
  | .ruleSatisfied => ""
  | .testResultPassed st _ _ => st
  | .testResultFailed st _ _ _ => st
  | .testResultMissing st _ _ => st
  | .invalidRemoteRuleYaml st _ => st
  | .missingRemoteRuleYaml st _ => st

/-- The subject identifier carried by an answer. -/
def Answer.subjectIdentifier : Answer → String
  | .ruleSatisfied => ""
  | .testResultPassed _ si _ => si
  | .testResultFailed _ si _ _ => si
  | .testResultMissing _ si _ => si
  | .invalidRemoteRuleYaml _ si => si
  | .missingRemoteRuleYaml _ si => si

/-- A waiver record, as filtered from the waivers service. -/
structure Waiver where
  subject_type : String
  subject_identifier : String
  testcase : String
  product_version : String
  waived : Bool
deriving DecidableEq, Repr

/-- Modelled from the spec: the known set of equivalent legacy subject-type
aliases ("a build reported under one type name must match a waiver filed
under a related alias"); koji_build and brew-build are the aliases the
tests exercise. -/
def subjectTypeAliases (t : String) : List String :=
  if t = "koji_build" ∨ t = "brew-build" then ["koji_build", "brew-build"]
  else [t]

/-- Whether a waiver's subject type matches an answer's, up to the legacy
aliases. -/
def subjectTypeMatch (waiverType answerType : String) : Bool :=
  (subjectTypeAliases answerType).contains waiverType

/-- Modelled from the spec: waiver matching — `waived = true`, subject type
matching up to the aliases, and case-sensitive equality on subject
identifier, testcase and product version. -/
def waiverMatches (product_version : String) (a : Answer) (w : Waiver) : Bool :=
  w.waived && subjectTypeMatch w.subject_type a.subjectType &&
    w.subject_identifier == a.subjectIdentifier &&
    w.testcase == a.testcase &&
    w.product_version == product_version

/-- Modelled from the spec: waiving one unsatisfied answer.  A failed or
missing test answer is replaced by `RuleSatisfied`; an
`InvalidRemoteRuleYaml`/`MissingRemoteRuleYaml` answer is dropped from the
decision entirely (removed, not converted to satisfied). -/
def Answer.to_waived : Answer → Option Answer
  | .testResultFailed _ _ _ _ => some .ruleSatisfied
  | .testResultMissing _ _ _ => some .ruleSatisfied
  | .invalidRemoteRuleYaml _ _ => none
  | .missingRemoteRuleYaml _ _ => none
  | a => some a

/-- Modelled from the spec: `waive_answers` — satisfied answers pass
through; an unsatisfied answer with a matching waiver is replaced by its
waived form, or removed when the waived form is empty; an unsatisfied
answer with no matching waiver passes through. -/
def waive_answers (product_version : String) (answers : List Answer)
    (waivers : List Waiver) : List Answer :=
  answers.filterMap fun a =>
    if a.is_satisfied then some a
    else
      match waivers.find? (waiverMatches product_version a) with
      | none => some a
      | some _ => a.to_waived

/-- Whether an answer is a failed test result. -/
def Answer.isFailed : Answer → Bool
  | .testResultFailed _ _ _ _ => true
  | _ => false

/-- Whether an answer counts as a missing result for the summary (missing
test result, invalid remote rule or missing required remote rule). -/
def Answer.isMissingKind : Answer → Bool
  | .testResultMissing _ _ _ => true
  | .invalidRemoteRuleYaml _ _ => true
  | .missingRemoteRuleYaml _ _ => true
  | _ => false

/-- The failed-tests clause of a summary. -/
def failedClause (failure_count total : Nat) : String :=
  toString failure_count ++ " of " ++ toString total ++ " required tests failed"

/-- The missing-results clause of a summary when no test failed. -/
def missingAloneClause (missing_count total : Nat) : String :=
  toString missing_count ++ " of " ++ toString total ++
    " required test results missing"

/-- The shorter missing-results clause appended after a failed clause, with
"result" pluralised by its count. -/
def missingShortClause (missing_count : Nat) : String :=
  toString missing_count ++ " result" ++
    (if missing_count > 1 then "s" else "") ++ " missing"

/-- Modelled from the spec: `summarize_answers` (policies.py is not among
the provided sources; the wording is pinned by the spec examples and by
test_summarize_answers).  Clauses with a zero count are omitted and the
present clauses are joined with ", ". -/
def summarize_answers (answers : List Answer) : String :=
  if answers.length = 0 then "no tests are required"
  else if answers.all Answer.is_satisfied then "All required tests passed"
  else
    let failure_count := (answers.filter Answer.isFailed).length
    let missing_count := (answers.filter Answer.isMissingKind).length
    String.intercalate ", "
      ((if failure_count > 0 then [failedClause failure_count answers.length]
        else []) ++
       (if missing_count > 0 then
          (if failure_count > 0 then [missingShortClause missing_count]
           else [missingAloneClause missing_count answers.length])
        else []))

/-! ## Decision-change detection (greenwave/consumers/waiverdb.py) -/

/-- A decision returned by the `/decision` endpoint, kept opaque. -/
abbrev Decision := String

/-- A `decision.update` message published on the bus: the
(decision_context, product_version) pair it concerns, the new decision and
the previous one. -/
structure DecisionUpdate where
  decision_context : String
  product_version : String
  decision : Decision
  previous : Decision
deriving DecidableEq, Repr

/-- Lexicographic order on (decision_context, product_version) pairs, as
computed by Python's sorted() on tuples of strings. -/
def pairLe (a b : String × String) : Prop :=
  a.1 < b.1 ∨ (a.1 = b.1 ∧ a.2 ≤ b.2)

instance : DecidableRel pairLe := fun a b => by
  unfold pairLe
  infer_instance

instance : IsTotal (String × String) pairLe where
  total a b := by
    rcases lt_trichotomy a.1 b.1 with h | h | h
    · exact Or.inl (Or.inl h)
    · rcases le_total a.2 b.2 with h2 | h2
      · exact Or.inl (Or.inr ⟨h, h2⟩)
      · exact Or.inr (Or.inr ⟨h.symm, h2⟩)
    · exact Or.inr (Or.inl h)

instance : IsTrans (String × String) pairLe where
  trans a b c hab hbc := by
    rcases hab with h1 | ⟨e1, l1⟩
    · rcases hbc with h2 | ⟨e2, _⟩
      · exact Or.inl (h1.trans h2)
      · exact Or.inl (e2 ▸ h1)
    · rcases hbc with h2 | ⟨e2, l2⟩
      · exact Or.inl (e1 ▸ h2)
      · exact Or.inr ⟨e1.trans e2, l1.trans l2⟩

/-- Embedding of `WaiverDBHandler._publish_decision_changes`: iterate the
applicable (decision_context, product_version) pairs in sorted order; for
each, fetch the current decision (no `when`), and skip the pair when the
response is not ok; then fetch the old decision as of right before the
waiver's submit time, and skip on a non-ok response; skip when the two
decisions are equal; otherwise publish an update message.  The decision
endpoint is the function `fetch pair when?` with `none` as a non-ok
response; `rightBefore` stands for `right_before_this_time(submit_time)`.
`publish_step` is the loop body for one pair. -/
def publish_step
    (fetch : String × String → Option String → Option Decision)
    (rightBefore : String) (cp : String × String) : Option DecisionUpdate :=
  match fetch cp none with
  | none => none
  | some decision =>
    match fetch cp (some rightBefore) with
    | none => none
    | some old_decision =>
      if decision = old_decision then none
      else some { decision_context := cp.1, product_version := cp.2,
                  decision := decision, previous := old_decision }

/-- The full loop of `_publish_decision_changes`: one `publish_step` per
applicable pair, in sorted order. -/
def publish_decision_changes
    (fetch : String × String → Option String → Option Decision)
    (rightBefore : String)
    (pairs : List (String × String)) : List DecisionUpdate :=
  (List.insertionSort pairLe pairs).filterMap (publish_step fetch rightBefore)

/-! ## Theorems -/

/-- C1: for every remote policy fragment fetch, the web path returns `none`
exactly when HEAD answers 404, raises `BadGateway` exactly when the HEAD
status is neither 200 nor 404, and issues the content GET exactly after a
200 HEAD; the git-archive path returns `none` exactly when the command
fails with "path not found" in its error output and raises `BadGateway`
exactly on any other non-zero exit. -/
theorem c1_remote_rule_fetch (w : WebEndpoint) (g : GitArchive) :
    ((retrieve_yaml_remote_rule_web w).2 = .ok none ↔ w.headStatus = 404) ∧
    ((∃ msg, (retrieve_yaml_remote_rule_web w).2 = .error (.badGateway msg)) ↔
      (w.headStatus ≠ 200 ∧ w.headStatus ≠ 404)) ∧
    (HttpMethod.get ∈ (retrieve_yaml_remote_rule_web w).1 ↔ w.headStatus = 200) ∧
    ((retrieve_yaml_remote_rule_web w).1 = [.head] ∨
      (retrieve_yaml_remote_rule_web w).1 = [.head, .get]) ∧
    (retrieve_yaml_remote_rule_git_archive g = .ok none ↔
      (g.returncode ≠ 0 ∧ strContainsSubstr g.errorOutput "path not found" = true)) ∧
    ((∃ msg, retrieve_yaml_remote_rule_git_archive g = .error (.badGateway msg)) ↔
      (g.returncode ≠ 0 ∧ strContainsSubstr g.errorOutput "path not found" = false)) := by
  unfold retrieve_yaml_remote_rule_web retrieve_yaml_remote_rule_git_archive
  refine ⟨?_, ?_, ?_, ?_, ?_, ?_⟩ <;> split_ifs <;> simp_all

/-- C2: every handled connection/timeout failure of an upstream request is
converted into a synthetic response rather than raised: status 504 for
`ConnectTimeout` and `RetryError`, status 502 for `ConnectionError`,
`ProxyError` and `SSLError`, with the error message carried in the JSON
body and the request URL preserved; a successful future passes its
response through unchanged. -/
theorem c2_session_failure_mapping (url msg : String) :
    (RequestsSession.response (.failure url (.connectTimeout msg))).statusCode = 504 ∧
    (RequestsSession.response (.failure url (.retryError msg))).statusCode = 504 ∧
    (RequestsSession.response (.failure url (.connectionError msg))).statusCode = 502 ∧
    (RequestsSession.response (.failure url (.proxyError msg))).statusCode = 502 ∧
    (RequestsSession.response (.failure url (.sslError msg))).statusCode = 502 ∧
    (∀ e : RequestError,
      (RequestsSession.response (.failure url e)).content = jsonDumpsMessage e.message ∧
      (RequestsSession.response (.failure url e)).url = url) ∧
    (∀ r : Response, RequestsSession.response (.success r) = r) := by
  refine ⟨rfl, rfl, rfl, rfl, rfl, ?_, fun r => rfl⟩
  intro e
  cases e <;> exact ⟨rfl, rfl⟩

/-- C4 counterexample: on a build whose `source` attribute is absent,
`retrieve_scm_from_koji_build` raises a `BadGateway` error surfaced to the
caller — there is no `NoSourceError` and the absence is not treated as a
"no fragment" result. -/
theorem c4_missing_source_counterexample :
    retrieve_scm_from_koji_build "nethack-1.2.3-1.el9000"
      (some { source := none }) "https://koji.example.com/kojihub" =
      .error (.badGateway (noSourceMessage "nethack-1.2.3-1.el9000"
        "https://koji.example.com/kojihub")) := rfl

/-- C4 (amended): when resolving source-control coordinates from the build
system, a transient connection failure on one attempt is retried (the
computation proceeds with the subsequent attempts), while a build lacking
its `source` attribute raises a permanent `BadGateway` error immediately,
independent of the remaining retry budget. -/
theorem c4_scm_resolution (nvr koji_url msg : String) (fuel : Nat)
    (getBuild : Nat → Except KojiCallError (Option KojiBuild)) :
    (getBuild 0 = .error (.newConnectionError msg) →
      retrieve_scm_from_koji (fuel + 1) getBuild nvr koji_url =
        retrieve_scm_from_koji fuel (fun i => getBuild (i + 1)) nvr koji_url) ∧
    (getBuild 0 = .ok (some { source := none }) →
      retrieve_scm_from_koji fuel getBuild nvr koji_url =
        .error (.badGateway (noSourceMessage nvr koji_url))) := by
  have shift : ∀ (run : Nat → Except KojiCallError (String × String × String))
      (f a : Nat), retryCall KojiCallError.isTransient run (a + 1) f =
        retryCall KojiCallError.isTransient (fun i => run (i + 1)) a f := by
    intro run f
    induction f with
    | zero => intro a; rfl
    | succ f ih =>
      intro a
      simp only [retryCall]
      cases run (a + 1) <;> simp [ih]
  constructor
  · intro h
    unfold retrieve_scm_from_koji
    simp only [retryCall, h, KojiCallError.isTransient, if_true]
    exact shift _ fuel 0
  · intro h
    unfold retrieve_scm_from_koji
    cases fuel with
    | zero => simp [retryCall, h, retrieve_scm_from_koji_build]
    | succ f => simp [retryCall, h, retrieve_scm_from_koji_build, KojiCallError.isTransient]

/-- C4 witness: the amended theorem applied at concrete inputs — a
connection failure on the first attempt is retried and the second attempt
succeeds, while a build without `source` yields the permanent `BadGateway`
under a nonzero retry budget. -/
theorem c4_scm_resolution_witness :
    (retrieve_scm_from_koji 2
        (fun i => if i = 0 then .error (.newConnectionError "conn refused")
                  else .ok (some { source := some "git://pkgs.example.com/rpms/nethack#abc1234" }))
        "nethack-1.2.3-1.el9000" "https://koji.example.com/kojihub" =
      retrieve_scm_from_koji 1
        (fun i => if i + 1 = 0 then .error (.newConnectionError "conn refused")
                  else .ok (some { source := some "git://pkgs.example.com/rpms/nethack#abc1234" }))
        "nethack-1.2.3-1.el9000" "https://koji.example.com/kojihub") ∧
    (retrieve_scm_from_koji 3 (fun _ => .ok (some { source := none }))
        "nethack-1.2.3-1.el9000" "https://koji.example.com/kojihub" =
      .error (.badGateway (noSourceMessage "nethack-1.2.3-1.el9000"
        "https://koji.example.com/kojihub"))) :=
  ⟨(c4_scm_resolution "nethack-1.2.3-1.el9000" "https://koji.example.com/kojihub"
      "conn refused" 1 _).1 rfl,
   (c4_scm_resolution "nethack-1.2.3-1.el9000" "https://koji.example.com/kojihub"
      "" 3 _).2 rfl⟩

/-- C7: the shared session retries up to 3 times with exponential backoff
of base delay 1, exactly on statuses 500, 502, 503 and 504 and on
connection-level errors, for the idempotent GET/HEAD methods and POST; the
long-poll decision re-fetch retries for up to 300 seconds at 30-second
intervals on connection errors only. -/
theorem c7_retry_policy :
    get_requests_session.total = 3 ∧
    get_requests_session.backoff_factor = 1 ∧
    (∀ n, backoffDelay get_requests_session (n + 1) = 2 ^ n) ∧
    get_requests_session.status_forcelist = [500, 502, 503, 504] ∧
    "GET" ∈ get_requests_session.method_whitelist ∧
    "HEAD" ∈ get_requests_session.method_whitelist ∧
    "POST" ∈ get_requests_session.method_whitelist ∧
    get_requests_session.connect = 3 ∧
    retrieve_decision_retry.timeout = 300 ∧
    retrieve_decision_retry.interval = 30 ∧
    retrieve_decision_retry.wait_on = "urllib3.exceptions.NewConnectionError" := by
  refine ⟨rfl, rfl, ?_, rfl, by decide, by decide, by decide, rfl, rfl, rfl, rfl⟩
  intro n
  simp [backoffDelay, get_requests_session]

/-- C10: `retrieve_waivers` with an empty `subject_identifiers` collection
returns an empty list without issuing any request; with a non-empty
collection it issues exactly one POST whose filters list holds exactly one
filter per identifier, each carrying the product version and subject
type. -/
theorem c10_retrieve_waivers_requests {W : Type}
    (upstream : List WaiverFilter → List W)
    (pv st : String) (ids : List String) (when : String) :
    (ids = [] → retrieve_waivers upstream pv st ids when = ([], [])) ∧
    (ids ≠ [] →
      ∃ filters : List WaiverFilter,
        (retrieve_waivers upstream pv st ids when).1 = [filters] ∧
        (retrieve_waivers upstream pv st ids when).2 = upstream filters ∧
        filters.map (fun f => f.subject_identifier) = ids ∧
        ∀ f ∈ filters, f.product_version = pv ∧ f.subject_type = st) := by
  constructor
  · intro h
    subst h
    rfl
  · intro h
    refine ⟨ids.map fun sid =>
      { product_version := pv, subject_type := st, subject_identifier := sid
        since := if when = "" then none else some (sinceValue when) }, ?_, ?_, ?_, ?_⟩
    · simp [retrieve_waivers, h]
    · simp [retrieve_waivers, h]
    · rw [List.map_map]
      exact List.map_id ids
    · intro f hf
      simp only [List.mem_map] at hf
      obtain ⟨sid, _, rfl⟩ := hf
      exact ⟨rfl, rfl⟩

/-- C10 witness: the theorem applied at an empty and at a singleton
identifier collection. -/
theorem c10_retrieve_waivers_requests_witness :
    (retrieve_waivers (fun _ => ([] : List Nat)) "fedora-31" "koji_build" [] "" =
      ([], [])) ∧
    (∃ filters : List WaiverFilter,
      (retrieve_waivers (fun _ => ([] : List Nat)) "fedora-31" "koji_build"
        ["glibc-2.30-1.fc31"] "").1 = [filters] ∧
      (retrieve_waivers (fun _ => ([] : List Nat)) "fedora-31" "koji_build"
        ["glibc-2.30-1.fc31"] "").2 = (fun _ => ([] : List Nat)) filters ∧
      filters.map (fun f => f.subject_identifier) = ["glibc-2.30-1.fc31"] ∧
      ∀ f ∈ filters, f.product_version = "fedora-31" ∧ f.subject_type = "koji_build") :=
  ⟨(c10_retrieve_waivers_requests (fun _ => ([] : List Nat)) "fedora-31" "koji_build"
      [] "").1 rfl,
   (c10_retrieve_waivers_requests (fun _ => ([] : List Nat)) "fedora-31" "koji_build"
      ["glibc-2.30-1.fc31"] "").2 (by simp)⟩

/-- C3: a PASSED result cached for (subject, testcase) is returned by later
retrievals for that key with no upstream query — regardless of what the
upstream source would now return, and leaving the cached entry untouched —
while a lookup whose cached value is absent or non-passing always issues
the upstream query and returns its data. -/
theorem c3_sticky_pass (upstream : Unit → List TestResult)
    (cache : List (CacheKey × TestResult)) (key : CacheKey) :
    (∀ r, cache.lookup key = some r → r.outcome = "PASSED" →
      retrieve_cached upstream cache key = ([r], cache, 0)) ∧
    (cache.lookup key = none →
      (retrieve_cached upstream cache key).1 = upstream () ∧
      (retrieve_cached upstream cache key).2.2 = 1) ∧
    (∀ r, cache.lookup key = some r → r.outcome ≠ "PASSED" →
      (retrieve_cached upstream cache key).1 = upstream () ∧
      (retrieve_cached upstream cache key).2.2 = 1) := by
  have hquery : (retrieve_cached_query upstream cache key).1 = upstream () ∧
      (retrieve_cached_query upstream cache key).2.2 = 1 := by
    unfold retrieve_cached_query
    rcases h : (upstream ()).find? (fun t => t.outcome == "PASSED") with _ | p <;>
      simp [h]
  refine ⟨?_, ?_, ?_⟩
  · intro r hr hp
    unfold retrieve_cached
    rw [hr]
    simp [hp]
  · intro hnone
    unfold retrieve_cached
    rw [hnone]
    exact hquery
  · intro r hr hp
    unfold retrieve_cached
    rw [hr]
    simpa [hp] using hquery

/-- C3 witness: the theorem applied at concrete inputs — a cached PASSED
result for (bodhi_update, update-1, sometest) is served with zero upstream
queries even though the upstream source now reports FAILED; an empty cache
and a cached FAILED entry both lead to one upstream query. -/
theorem c3_sticky_pass_witness :
    (retrieve_cached
        (fun _ => [{ id := 124, testcase := "sometest", outcome := "FAILED" }])
        [(("bodhi_update", "update-1", "sometest"),
          { id := 123, testcase := "sometest", outcome := "PASSED" })]
        ("bodhi_update", "update-1", "sometest") =
      ([{ id := 123, testcase := "sometest", outcome := "PASSED" }],
        [(("bodhi_update", "update-1", "sometest"),
          { id := 123, testcase := "sometest", outcome := "PASSED" })], 0)) ∧
    ((retrieve_cached
        (fun _ => [{ id := 124, testcase := "sometest", outcome := "FAILED" }])
        [] ("bodhi_update", "update-1", "sometest")).2.2 = 1) ∧
    ((retrieve_cached
        (fun _ => [{ id := 124, testcase := "sometest", outcome := "FAILED" }])
        [(("bodhi_update", "update-1", "sometest"),
          { id := 122, testcase := "sometest", outcome := "FAILED" })]
        ("bodhi_update", "update-1", "sometest")).2.2 = 1) :=
  ⟨(c3_sticky_pass
      (fun _ => [{ id := 124, testcase := "sometest", outcome := "FAILED" }])
      [(("bodhi_update", "update-1", "sometest"),
        { id := 123, testcase := "sometest", outcome := "PASSED" })]
      ("bodhi_update", "update-1", "sometest")).1
      { id := 123, testcase := "sometest", outcome := "PASSED" } rfl rfl,
   ((c3_sticky_pass
      (fun _ => [{ id := 124, testcase := "sometest", outcome := "FAILED" }])
      [] ("bodhi_update", "update-1", "sometest")).2.1 rfl).2,
   ((c3_sticky_pass
      (fun _ => [{ id := 124, testcase := "sometest", outcome := "FAILED" }])
      [(("bodhi_update", "update-1", "sometest"),
        { id := 122, testcase := "sometest", outcome := "FAILED" })]
      ("bodhi_update", "update-1", "sometest")).2.2
      { id := 122, testcase := "sometest", outcome := "FAILED" } rfl
      (by decide)).2⟩

/-- C5: a retrieval with subject type koji_build issues exactly two
upstream queries — the first with type `koji_build,brew-build` and `item`
equal to the subject identifier, the second with those keys removed and
`original_spec_nvr` equal to the subject identifier — and returns the
concatenation of their data filtered by the ignore set; for every subject
type, no returned result has its id in the configured ignore set. -/
theorem c5_results_retrieval (r : ResultsRetriever)
    (upstream : Params → List TestResult) (testcase : Option String)
    (scenarios : List String) (subject_identifier : String) :
    (∃ q1 q2 : Params,
      (r.retrieve upstream "koji_build" subject_identifier testcase scenarios).1 =
        [q1, q2] ∧
      q1.type = some "koji_build,brew-build" ∧
      q1.item = some subject_identifier ∧
      q1.original_spec_nvr = none ∧
      q2.type = none ∧
      q2.item = none ∧
      q2.original_spec_nvr = some subject_identifier ∧
      (r.retrieve upstream "koji_build" subject_identifier testcase scenarios).2 =
        (upstream q1 ++ upstream q2).filter
          (fun t => !(r.ignore_results.contains t.id))) ∧
    (∀ subject_type : String,
      (r.retrieve upstream subject_type subject_identifier testcase scenarios).2.all
        (fun t => !(r.ignore_results.contains t.id)) = true) := by
  constructor
  · refine ⟨{ since := if r.when = "" then none else some (sinceValue r.when)
              testcases := testcase
              scenario := if scenarios = [] then none
                          else some (String.intercalate "," scenarios)
              type := some "koji_build,brew-build"
              item := some subject_identifier
              original_spec_nvr := none
              productmd_compose_id := none
              distinct_on := some "scenario,system_architecture" },
            { since := if r.when = "" then none else some (sinceValue r.when)
              testcases := testcase
              scenario := if scenarios = [] then none
                          else some (String.intercalate "," scenarios)
              type := none
              item := none
              original_spec_nvr := some subject_identifier
              productmd_compose_id := none
              distinct_on := some "scenario,system_architecture" },
            rfl, rfl, rfl, rfl, rfl, rfl, rfl, rfl⟩
  · intro subject_type
    rw [List.all_eq_true]
    intro t ht
    unfold ResultsRetriever.retrieve ResultsRetriever.retrieve_helper at ht
    split_ifs at ht <;>
      simp_all [ResultsRetriever.make_request, List.mem_filter] <;>
      tauto

/-- Characterisation of one decision-change step: it yields a message
exactly when both decision fetches succeed and the two decisions differ,
and the message records the pair and both decisions. -/
theorem publish_step_eq_some
    (fetch : String × String → Option String → Option Decision)
    (rightBefore : String) (cp : String × String) (m : DecisionUpdate) :
    publish_step fetch rightBefore cp = some m ↔
      (cp = (m.decision_context, m.product_version) ∧
       fetch cp none = some m.decision ∧
       fetch cp (some rightBefore) = some m.previous ∧
       m.decision ≠ m.previous) := by
  rcases h1 : fetch cp none with _ | d
  · simp [publish_step, h1]
  · rcases h2 : fetch cp (some rightBefore) with _ | od
    · simp [publish_step, h1, h2]
    · simp only [publish_step, h1, h2]
      by_cases he : d = od
      · subst he
        constructor
        · intro h
          rw [if_pos rfl] at h
          cases h
        · rintro ⟨_, hd, hp, hne⟩
          injection hd with hd
          injection hp with hp
          exact absurd (hd.symm.trans hp) hne
      · simp only [if_neg he]
        constructor
        · intro h
          injection h with h
          subst h
          exact ⟨rfl, rfl, rfl, he⟩
        · rintro ⟨hcp, hd, hp, _⟩
          obtain ⟨mdc, mpv, md, mp⟩ := m
          injection hd with hd
          injection hp with hp
          subst hd
          subst hp
          cases hcp
          rfl

/-- The pairs of the messages a run emits are exactly the pairs of the
iterated list that pass the step, in iteration order. -/
theorem publish_pairs_eq_filter
    (fetch : String × String → Option String → Option Decision)
    (rightBefore : String) (l : List (String × String)) :
    (l.filterMap (publish_step fetch rightBefore)).map
        (fun m => (m.decision_context, m.product_version)) =
      l.filter (fun cp => (publish_step fetch rightBefore cp).isSome) := by
  induction l with
  | nil => rfl
  | cons cp l ih =>
    simp only [List.filterMap_cons, List.filter_cons]
    rcases h : publish_step fetch rightBefore cp with _ | m
    · simpa using ih
    · have hcp : (m.decision_context, m.product_version) = cp :=
        ((publish_step_eq_some fetch rightBefore cp m).mp h).1.symm
      simp [hcp, ih]

/-- C6: the decision-change detector emits a decision-update message
exactly for the applicable pairs whose current decision and decision as of
right before the waiver's submit time both fetch successfully and differ;
the emitted messages follow the sorted order of the pairs; and no message
is published for a pair when either fetch fails or the two decisions are
equal. -/
theorem c6_decision_changes
    (fetch : String × String → Option String → Option Decision)
    (rightBefore : String) (pairs : List (String × String)) :
    (∀ m : DecisionUpdate,
      m ∈ publish_decision_changes fetch rightBefore pairs ↔
        ((m.decision_context, m.product_version) ∈ pairs ∧
         fetch (m.decision_context, m.product_version) none = some m.decision ∧
         fetch (m.decision_context, m.product_version) (some rightBefore) =
           some m.previous ∧
         m.decision ≠ m.previous)) ∧
    List.Sorted pairLe
      ((publish_decision_changes fetch rightBefore pairs).map
        (fun m => (m.decision_context, m.product_version))) ∧
    (∀ cp ∈ pairs,
      (fetch cp none = none ∨ fetch cp (some rightBefore) = none ∨
        fetch cp none = fetch cp (some rightBefore)) →
      ∀ m ∈ publish_decision_changes fetch rightBefore pairs,
        (m.decision_context, m.product_version) ≠ cp) := by
  have mem_pub : ∀ m : DecisionUpdate,
      m ∈ publish_decision_changes fetch rightBefore pairs ↔
        ((m.decision_context, m.product_version) ∈ pairs ∧
         fetch (m.decision_context, m.product_version) none = some m.decision ∧
         fetch (m.decision_context, m.product_version) (some rightBefore) =
           some m.previous ∧
         m.decision ≠ m.previous) := by
    intro m
    unfold publish_decision_changes
    rw [List.mem_filterMap]
    constructor
    · rintro ⟨cp, hcp, hstep⟩
      obtain ⟨hcpe, hd, hp, hne⟩ :=
        (publish_step_eq_some fetch rightBefore cp m).mp hstep
      subst hcpe
      exact ⟨(List.perm_insertionSort pairLe pairs).mem_iff.mp hcp, hd, hp, hne⟩
    · rintro ⟨hmem, hd, hp, hne⟩
      exact ⟨(m.decision_context, m.product_version),
        (List.perm_insertionSort pairLe pairs).mem_iff.mpr hmem,
        (publish_step_eq_some fetch rightBefore _ m).mpr ⟨rfl, hd, hp, hne⟩⟩
  refine ⟨mem_pub, ?_, ?_⟩
  · unfold publish_decision_changes
    rw [publish_pairs_eq_filter]
    exact (List.sorted_insertionSort pairLe pairs).filter _
  · intro cp _ hdisj m hm heq
    obtain ⟨_, hd, hp, hne⟩ := (mem_pub m).mp hm
    rw [heq] at hd hp
    rcases hdisj with h | h | h
    · rw [h] at hd
      cases hd
    · rw [h] at hp
      cases hp
    · rw [hd, hp] at h
      injection h with h
      exact hne h

/-- C6 witness: the theorem applied at concrete inputs — with two pairs
given out of order and a fetch whose decisions differ only for one pair,
exactly that pair's message is emitted. -/
theorem c6_decision_changes_witness :
    ({ decision_context := "bodhi_update_push_stable"
       product_version := "fedora-26"
       decision := "changed", previous := "old" : DecisionUpdate } ∈
      publish_decision_changes
        (fun cp w =>
          if cp.1 = "bodhi_update_push_stable" then
            (match w with | none => some "changed" | some _ => some "old")
          else some "same")
        "2019-03-31T23:59:59.999999"
        [("rawhide_compose", "fedora-rawhide"),
         ("bodhi_update_push_stable", "fedora-26")]) ∧
    (∀ m ∈ publish_decision_changes
        (fun cp w =>
          if cp.1 = "bodhi_update_push_stable" then
            (match w with | none => some "changed" | some _ => some "old")
          else some "same")
        "2019-03-31T23:59:59.999999"
        [("rawhide_compose", "fedora-rawhide"),
         ("bodhi_update_push_stable", "fedora-26")],
      (m.decision_context, m.product_version) ≠
        ("rawhide_compose", "fedora-rawhide")) :=
  ⟨((c6_decision_changes
      (fun cp w =>
        if cp.1 = "bodhi_update_push_stable" then
          (match w with | none => some "changed" | some _ => some "old")
        else some "same")
      "2019-03-31T23:59:59.999999"
      [("rawhide_compose", "fedora-rawhide"),
       ("bodhi_update_push_stable", "fedora-26")]).1 _).mpr
    ⟨by decide, rfl, rfl, by decide⟩,
   (c6_decision_changes
      (fun cp w =>
        if cp.1 = "bodhi_update_push_stable" then
          (match w with | none => some "changed" | some _ => some "old")
        else some "same")
      "2019-03-31T23:59:59.999999"
      [("rawhide_compose", "fedora-rawhide"),
       ("bodhi_update_push_stable", "fedora-26")]).2.2
    ("rawhide_compose", "fedora-rawhide") (by decide)
    (Or.inr (Or.inr rfl))⟩

/-- C8: malformed and missing remote rule fragments report their answers
under the special `invalid-gating-yaml` testcase name, and a waiver filed
for the subject under that name matches them like a test failure; when
such an `InvalidRemoteRuleYaml`/`MissingRemoteRuleYaml` answer is waived,
`waive_answers` removes it from the decision entirely — the output is
exactly the waiving of the surrounding answers, with neither the original
answer nor a `RuleSatisfied` replacement for it. -/
theorem c8_waived_invalid_yaml_dropped (product_version : String)
    (xs ys : List Answer) (a : Answer) (waivers : List Waiver) :
    (∀ st si,
      (Answer.invalidRemoteRuleYaml st si).testcase = invalidGatingYaml ∧
      (Answer.missingRemoteRuleYaml st si).testcase = invalidGatingYaml ∧
      waiverMatches product_version (Answer.invalidRemoteRuleYaml st si)
        { subject_type := st, subject_identifier := si
          testcase := invalidGatingYaml, product_version := product_version
          waived := true } = true) ∧
    ((∃ st si, a = .invalidRemoteRuleYaml st si ∨ a = .missingRemoteRuleYaml st si) →
     (∃ w ∈ waivers, waiverMatches product_version a w = true) →
     waive_answers product_version (xs ++ a :: ys) waivers =
       waive_answers product_version xs waivers ++
         waive_answers product_version ys waivers) := by
  constructor
  · intro st si
    refine ⟨rfl, rfl, ?_⟩
    simp only [waiverMatches, Answer.testcase, Answer.subjectType,
      Answer.subjectIdentifier, Bool.and_eq_true, beq_self_eq_true,
      and_true, true_and]
    unfold subjectTypeMatch subjectTypeAliases
    split_ifs with h
    · rcases h with rfl | rfl <;> decide
    · simp
  · rintro hform ⟨w, hw, hmatch⟩
    have hsat : a.is_satisfied = false := by
      obtain ⟨st, si, h | h⟩ := hform <;> subst h <;> rfl
    have hwv : a.to_waived = none := by
      obtain ⟨st, si, h | h⟩ := hform <;> subst h <;> rfl
    have hfind : (waivers.find? (waiverMatches product_version a)).isSome := by
      rw [List.find?_isSome]
      exact ⟨w, hw, hmatch⟩
    obtain ⟨w', hw'⟩ := Option.isSome_iff_exists.mp hfind
    unfold waive_answers
    rw [List.filterMap_append, List.filterMap_cons]
    simp [hsat, hw', hwv]

/-- C8 witness: the theorem applied at the test's concrete scenario — an
invalid remote rule answer for a koji build, waived under
`invalid-gating-yaml`, disappears from the decision. -/
theorem c8_waived_invalid_yaml_dropped_witness :
    waive_answers "fedora-26"
      [Answer.invalidRemoteRuleYaml "koji_build" "nethack-1.2.3-1.el9000"]
      [{ subject_type := "koji_build"
         subject_identifier := "nethack-1.2.3-1.el9000"
         testcase := "invalid-gating-yaml", product_version := "fedora-26"
         waived := true }] = [] := by
  have h := (c8_waived_invalid_yaml_dropped "fedora-26" [] []
    (Answer.invalidRemoteRuleYaml "koji_build" "nethack-1.2.3-1.el9000")
    [{ subject_type := "koji_build"
       subject_identifier := "nethack-1.2.3-1.el9000"
       testcase := "invalid-gating-yaml", product_version := "fedora-26"
       waived := true }]).2
    ⟨"koji_build", "nethack-1.2.3-1.el9000", Or.inl rfl⟩
    ⟨{ subject_type := "koji_build"
       subject_identifier := "nethack-1.2.3-1.el9000"
       testcase := "invalid-gating-yaml", product_version := "fedora-26"
       waived := true }, by decide, by decide⟩
  simpa using h

/-- C9: `summarize_answers` pluralises "result" by its count, omits any
clause whose count is zero, joins the present clauses with ", ", and
produces the four specified example summaries. -/
theorem c9_summarize_answers (answers : List Answer) :
    summarize_answers [.ruleSatisfied] = "All required tests passed" ∧
    summarize_answers [.testResultFailed "koji_build" "nvr" "test" 1,
      .ruleSatisfied] = "1 of 2 required tests failed" ∧
    summarize_answers [.testResultMissing "koji_build" "nvr" "test"] =
      "1 of 1 required test results missing" ∧
    summarize_answers [.testResultMissing "koji_build" "nvr" "test",
      .testResultFailed "koji_build" "nvr" "test" 1] =
      "1 of 2 required tests failed, 1 result missing" ∧
    missingShortClause 1 = "1 result missing" ∧
    missingShortClause 2 = "2 results missing" ∧
    (answers.length ≠ 0 → answers.all Answer.is_satisfied ≠ true →
      ((answers.filter Answer.isFailed).length > 0 →
        (answers.filter Answer.isMissingKind).length > 0 →
        summarize_answers answers =
          failedClause (answers.filter Answer.isFailed).length answers.length ++
            ", " ++ missingShortClause (answers.filter Answer.isMissingKind).length) ∧
      ((answers.filter Answer.isFailed).length > 0 →
        (answers.filter Answer.isMissingKind).length = 0 →
        summarize_answers answers =
          failedClause (answers.filter Answer.isFailed).length answers.length) ∧
      ((answers.filter Answer.isFailed).length = 0 →
        (answers.filter Answer.isMissingKind).length > 0 →
        summarize_answers answers =
          missingAloneClause (answers.filter Answer.isMissingKind).length
            answers.length)) := by
  refine ⟨rfl, rfl, rfl, rfl, rfl, rfl, ?_⟩
  intro hlen hsat
  unfold summarize_answers
  rw [if_neg hlen, if_neg hsat]
  refine ⟨?_, ?_, ?_⟩ <;>
    · intro hf hm
      simp [hf, hm, String.intercalate, String.intercalate.go]

/-- C9 witness: the theorem's general clause applied at a concrete answer
list with one failed and two missing answers. -/
theorem c9_summarize_answers_witness :
    summarize_answers [.testResultMissing "koji_build" "nvr" "testa",
      .testResultMissing "koji_build" "nvr" "testb",
      .testResultFailed "koji_build" "nvr" "test" 1] =
      "1 of 3 required tests failed, 2 results missing" := by
  have h := ((c9_summarize_answers
    [.testResultMissing "koji_build" "nvr" "testa",
     .testResultMissing "koji_build" "nvr" "testb",
     .testResultFailed "koji_build" "nvr" "test" 1]).2.2.2.2.2.2
    (by decide) (by decide)).1 (by decide) (by decide)
  simpa using h

end Greenwave
